import Mathlib

/-
Shallow embedding of development/nautobot_config.py.

The module reads the process environment, validates six required variables,
and assembles a settings mapping. The process environment is modelled as a
map from variable names to optional string values; the process argument
vector as a list of strings. The wildcard import from nautobot.core.settings
supplies the initial MIDDLEWARE list, which is therefore a parameter of the
configuration construction.
-/

namespace NautobotConfig

/-- The process environment: a variable is either absent (none) or bound to a
string (possibly empty). -/
def Env : Type := String → Option String

/-- Update an environment, binding key k to value v. -/
def envSet (env : Env) (k v : String) : Env :=
  fun key => if key = k then some v else env key

/-- Update an environment, removing any binding of key k. -/
def envUnset (env : Env) (k : String) : Env :=
  fun key => if key = k then none else env key

/-- Build an environment from an association list (first binding wins). -/
def envOfList (l : List (String × String)) : Env :=
  fun key => (l.find? (fun p => p.fst == key)).map Prod.snd

/-- Whether a load result is a success. -/
def exceptIsOk {ε α : Type} : Except ε α → Bool
  | Except.ok _ => true
  | Except.error _ => false

/-- The environment in which every variable is unset. -/
def emptyEnv : Env := fun _ => none

/-- Python falsiness of an optional string, as used by
the expression: not os.environ.get(key). None and the empty string are falsy. -/
def pyFalsy : Option String → Bool
  | none => true
  | some s => s == ""

/-- os.environ.get(key) / os.getenv(key): the raw optional lookup. -/
def environGet (env : Env) (key : String) : Option String := env key

/-- os.getenv(key, default) with a string default: the default is used only
when the variable is absent; a present empty string is returned as is. -/
def getenvD (env : Env) (key defaultVal : String) : String :=
  (env key).getD defaultVal

/-- Digits of a nonempty decimal numeral, or none. -/
def decDigits? (u : String) : Option Nat :=
  if u.length > 0 && u.all (fun c => c.isDigit) then
    some (u.foldl (fun acc c => acc * 10 + (c.toNat - 48)) 0)
  else
    none

/-- The Python builtin int applied to a string: optional surrounding
whitespace, an optional sign, then decimal digits; anything else raises
ValueError, modelled as none. -/
def pyInt? (s : String) : Option Int :=
  let t := s.trim
  if t.startsWith "-" then (decDigits? (t.drop 1)).map (fun n => -(n : Int))
  else if t.startsWith "+" then (decDigits? (t.drop 1)).map (fun n => (n : Int))
  else (decDigits? t).map (fun n => (n : Int))

/-- The pattern int(os.getenv(key, default)) with an integer default: the
default is used when the variable is absent, otherwise the string value is
coerced by the Python int builtin, whose ValueError is modelled as an error. -/
def getenvInt (env : Env) (key : String) (defaultVal : Int) : Except String Int :=
  match env key with
  | none => Except.ok defaultVal
  | some s =>
    match pyInt? s with
    | some n => Except.ok n
    | none => Except.error ("invalid literal for int with base 10: " ++ s)

/-- Modelled from the spec: is_truthy is imported from
nautobot.core.settings_funcs, which is not part of this repository. Per the
spec, truthy parsing accepts a fixed set of true spellings (values like
"true", "True", "1" yield true) and values like "false", "0" and the empty
string yield false. -/
def is_truthy (s : String) : Bool :=
  s == "true" || s == "True" || s == "1"

/-- The pattern is_truthy(os.getenv(key, default)) with a Python bool
default: when the variable is absent os.getenv returns the bool default and
is_truthy passes a bool through unchanged; when present the string value is
parsed by truthy semantics. -/
def getenvTruthy (env : Env) (key : String) (defaultVal : Bool) : Bool :=
  match env key with
  | none => defaultVal
  | some s => is_truthy s

/-- A Redis connection descriptor: the underlying endpoint data together
with the logical database index. -/
structure RedisConnection where
  host : String
  port : String
  password : String
  database : Nat
deriving DecidableEq, Repr

/-- Modelled from the spec: parse_redis_connection is imported from
nautobot.core.settings_funcs, which is not part of this repository. Per the
spec it is a shared connection-locator function parameterized by a logical
database index: descriptors built from the same base connection variables
differ only in their logical index component. -/
def parse_redis_connection (env : Env) (redis_database : Nat) : RedisConnection :=
  { host := getenvD env "NAUTOBOT_REDIS_HOST" "localhost"
    port := getenvD env "NAUTOBOT_REDIS_PORT" "6379"
    password := getenvD env "NAUTOBOT_REDIS_PASSWORD" ""
    database := redis_database }

/-- A value that is either a raw environment string or a derived Redis
connection descriptor, as produced by os.getenv(key, parse_redis_connection(...)). -/
inductive StrOrRedis where
  | str (s : String)
  | conn (c : RedisConnection)
deriving DecidableEq, Repr

/-- A value that is either a raw environment string or a Python bool, as
produced by os.environ.get(key, False). -/
inductive StrOrBool where
  | str (s : String)
  | pybool (b : Bool)
deriving DecidableEq, Repr

/-- The six required environment variables, in the order of the validation
loop. -/
def requiredKeys : List String :=
  [ "NAUTOBOT_ALLOWED_HOSTS"
  , "NAUTOBOT_DB_USER"
  , "NAUTOBOT_DB_PASSWORD"
  , "NAUTOBOT_REDIS_HOST"
  , "NAUTOBOT_REDIS_PASSWORD"
  , "NAUTOBOT_SECRET_KEY" ]

/-- A required variable is missing when it is absent or bound to the empty
string: not os.environ.get(key). -/
def requiredMissing (env : Env) (key : String) : Bool :=
  pyFalsy (environGet env key)

/-- The message of the ImproperlyConfigured error raised for a missing
required variable. -/
def requiredErrMsg (key : String) : String :=
  "Required environment variable " ++ key ++ " is missing."

/-- The validation loop over a list of required keys: raise on the first
missing one, otherwise fall through. -/
def checkRequiredList (env : Env) : List String → Except String Unit
  | [] => Except.ok ()
  | k :: ks =>
    if requiredMissing env k then Except.error (requiredErrMsg k)
    else checkRequiredList env ks

/-- Enforce required configuration parameters (lines 15 to 24 of the
source). -/
def checkRequired (env : Env) : Except String Unit :=
  checkRequiredList env requiredKeys

/-- TESTING = len(sys.argv) > 1 and sys.argv[1] == "test". -/
def TESTING (argv : List String) : Bool :=
  decide (argv.length > 1) && (argv.getD 1 "" == "test")

/-- ALLOWED_HOSTS = os.getenv("NAUTOBOT_ALLOWED_HOSTS", "").split(" "). -/
def ALLOWED_HOSTS (env : Env) : List String :=
  (getenvD env "NAUTOBOT_ALLOWED_HOSTS" "").splitOn " "

/-- The default database settings mapping. The OPTIONS entry is modelled as
an optional charset value, present exactly when the conditional adds it. -/
structure DatabaseDefault where
  name : String
  user : String
  password : String
  host : String
  port : String
  conn_max_age : Int
  engine : String
  options : Option String
deriving DecidableEq, Repr

/-- DATABASES["default"]: environment-sourced connection parameters, the
int coercion of NAUTOBOT_DB_TIMEOUT, and the MySQL-only OPTIONS entry
{"charset": "utf8mb4"} added when the engine is django.db.backends.mysql. -/
def DATABASES_default (env : Env) : Except String DatabaseDefault :=
  match getenvInt env "NAUTOBOT_DB_TIMEOUT" 300 with
  | Except.error e => Except.error e
  | Except.ok connMaxAge =>
    let engine := getenvD env "NAUTOBOT_DB_ENGINE" "django.db.backends.postgresql"
    Except.ok
      { name := getenvD env "NAUTOBOT_DB_NAME" "nautobot"
        user := getenvD env "NAUTOBOT_DB_USER" ""
        password := getenvD env "NAUTOBOT_DB_PASSWORD" ""
        host := getenvD env "NAUTOBOT_DB_HOST" "localhost"
        port := getenvD env "NAUTOBOT_DB_PORT" ""
        conn_max_age := connMaxAge
        engine := engine
        options := if engine = "django.db.backends.mysql" then some "utf8mb4" else none }

/-- One entry of the static CELERY_QUEUES mapping. -/
structure CeleryQueue where
  use_redis_cache : String
  default_timeout : Option Int
deriving DecidableEq, Repr

/-- CELERY_QUEUES: static queue definitions. -/
def CELERY_QUEUES : List (String × CeleryQueue) :=
  [ ("default", { use_redis_cache := "default", default_timeout := some 3600 })
  , ("check_releases", { use_redis_cache := "default", default_timeout := none })
  , ("custom_fields", { use_redis_cache := "default", default_timeout := none })
  , ("webhooks", { use_redis_cache := "default", default_timeout := none }) ]

/-- The CACHES["default"] mapping. -/
structure CacheDefault where
  backend : String
  location : RedisConnection
  timeout : Int
  client_class : String
  password : String
deriving DecidableEq, Repr

/-- CACHES["default"]: the django-redis cache, located at
parse_redis_connection(redis_database=0). -/
def CACHES_default (env : Env) : CacheDefault :=
  { backend := "django_redis.cache.RedisCache"
    location := parse_redis_connection env 0
    timeout := 300
    client_class := "django_redis.client.DefaultClient"
    password := getenvD env "NAUTOBOT_REDIS_PASSWORD" "" }

/-- CACHEOPS_REDIS = os.getenv("NAUTOBOT_CACHEOPS_REDIS",
parse_redis_connection(redis_database=1)). -/
def CACHEOPS_REDIS (env : Env) : StrOrRedis :=
  match env "NAUTOBOT_CACHEOPS_REDIS" with
  | some s => StrOrRedis.str s
  | none => StrOrRedis.conn (parse_redis_connection env 1)

/-- CELERY_BROKER_URL = os.getenv("NAUTOBOT_CELERY_BROKER_URL",
parse_redis_connection(redis_database=0)). -/
def CELERY_BROKER_URL (env : Env) : StrOrRedis :=
  match env "NAUTOBOT_CELERY_BROKER_URL" with
  | some s => StrOrRedis.str s
  | none => StrOrRedis.conn (parse_redis_connection env 0)

/-- CELERY_RESULT_BACKEND = os.getenv("NAUTOBOT_CELERY_RESULT_BACKEND",
parse_redis_connection(redis_database=0)). -/
def CELERY_RESULT_BACKEND (env : Env) : StrOrRedis :=
  match env "NAUTOBOT_CELERY_RESULT_BACKEND" with
  | some s => StrOrRedis.str s
  | none => StrOrRedis.conn (parse_redis_connection env 0)

/-- The logical database index of the primary cache location. -/
def cacheRedisDatabase (env : Env) : Nat :=
  (CACHES_default env).location.database

/-- The logical database index of the cacheops descriptor, when it is a
derived connection rather than a raw override string. -/
def cacheopsRedisDatabase (env : Env) : Option Nat :=
  match CACHEOPS_REDIS env with
  | StrOrRedis.conn c => some c.database
  | StrOrRedis.str _ => none

/-- The logical database index of the Celery broker descriptor, when it is
a derived connection rather than a raw override string. -/
def celeryBrokerRedisDatabase (env : Env) : Option Nat :=
  match CELERY_BROKER_URL env with
  | StrOrRedis.conn c => some c.database
  | StrOrRedis.str _ => none

/-- The logical database index of the Celery result backend descriptor,
when it is a derived connection rather than a raw override string. -/
def celeryResultRedisDatabase (env : Env) : Option Nat :=
  match CELERY_RESULT_BACKEND env with
  | StrOrRedis.conn c => some c.database
  | StrOrRedis.str _ => none

/-- SECRET_KEY = os.getenv("NAUTOBOT_SECRET_KEY"): no default, so possibly
None. -/
def SECRET_KEY (env : Env) : Option String :=
  env "NAUTOBOT_SECRET_KEY"

/-- ALLOWED_URL_SCHEMES: static tuple of permitted link schemes. -/
def ALLOWED_URL_SCHEMES : List String :=
  [ "file", "ftp", "ftps", "http", "https", "irc", "mailto", "sftp", "ssh"
  , "tel", "telnet", "tftp", "vnc", "xmpp" ]

/-- DEBUG = is_truthy(os.getenv("NAUTOBOT_DEBUG", False)). -/
def DEBUG (env : Env) : Bool :=
  getenvTruthy env "NAUTOBOT_DEBUG" false

/-- CACHEOPS_ENABLED = is_truthy(os.getenv("NAUTOBOT_CACHEOPS_ENABLED", True)). -/
def CACHEOPS_ENABLED (env : Env) : Bool :=
  getenvTruthy env "NAUTOBOT_CACHEOPS_ENABLED" true

/-- DJANGO_TOOLBAR_ENABLED = is_truthy(os.getenv("NAUTOBOT_DJANGO_TOOLBAR_ENABLED", False)). -/
def DJANGO_TOOLBAR_ENABLED (env : Env) : Bool :=
  getenvTruthy env "NAUTOBOT_DJANGO_TOOLBAR_ENABLED" false

/-- LOG_LEVEL = "DEBUG" if DEBUG else "INFO". -/
def LOG_LEVEL (env : Env) : String :=
  if DEBUG env then "DEBUG" else "INFO"

/-- One logger entry of the LOGGING mapping. -/
structure LoggerConfig where
  handlers : List String
  level : String
deriving DecidableEq, Repr

/-- The structured LOGGING configuration value. -/
structure LoggingConfig where
  version : Nat
  disable_existing_loggers : Bool
  normal_format : String
  normal_datefmt : String
  verbose_format : String
  verbose_datefmt : String
  normal_console_level : String
  normal_console_class : String
  normal_console_formatter : String
  django : LoggerConfig
  nautobot : LoggerConfig
  rq_worker : LoggerConfig
deriving DecidableEq, Repr

/-- LOGGING: the structured logging configuration, embedding the derived
LOG_LEVEL as the level of the nautobot and rq.worker loggers. -/
def LOGGING (env : Env) : LoggingConfig :=
  { version := 1
    disable_existing_loggers := false
    normal_format := "%(asctime)s.%(msecs)03d %(levelname)-7s %(name)s :\n  %(message)s"
    normal_datefmt := "%H:%M:%S"
    verbose_format := "%(asctime)s.%(msecs)03d %(levelname)-7s %(name)-20s %(filename)-15s %(funcName)30s() :\n  %(message)s"
    verbose_datefmt := "%H:%M:%S"
    normal_console_level := "DEBUG"
    normal_console_class := "logging.StreamHandler"
    normal_console_formatter := "normal"
    django := { handlers := ["normal_console"], level := "INFO" }
    nautobot := { handlers := ["normal_console"], level := LOG_LEVEL env }
    rq_worker := { handlers := ["normal_console"], level := LOG_LEVEL env } }

/-- os.environ.get(key, False): the raw string when the variable is set
(even to "false" or ""), the Python bool False when unset. -/
def environGetFalse (env : Env) (key : String) : StrOrBool :=
  match env key with
  | some s => StrOrBool.str s
  | none => StrOrBool.pybool false

/-- The nautobot_chatops entry of PLUGINS_CONFIG. -/
structure ChatopsConfig where
  enable_slack : StrOrBool
  slack_api_token : Option String
  slack_signing_secret : Option String
  slack_slash_command_pfx : String
  enable_webex : StrOrBool
  webex_token : Option String
  webex_signing_secret : Option String
  enable_mattermost : StrOrBool
  mattermost_api_token : Option String
  mattermost_url : Option String
  enable_ms_teams : StrOrBool
  microsoft_app_id : Option String
  microsoft_app_password : Option String
deriving DecidableEq, Repr

/-- PLUGINS_CONFIG["nautobot_chatops"]. The slash command option
(SLACK_SLASH_COMMAND_PREFIX in the source) defaults to "/". -/
def PLUGINS_CONFIG_chatops (env : Env) : ChatopsConfig :=
  { enable_slack := environGetFalse env "ENABLE_SLACK"
    slack_api_token := environGet env "SLACK_API_TOKEN"
    slack_signing_secret := environGet env "SLACK_SIGNING_SECRET"
    slack_slash_command_pfx := (environGet env "SLACK_SLASH_COMMAND_PREFIX").getD "/"
    enable_webex := environGetFalse env "ENABLE_WEBEX"
    webex_token := environGet env "WEBEX_TOKEN"
    webex_signing_secret := environGet env "WEBEX_SIGNING_SECRET"
    enable_mattermost := environGetFalse env "ENABLE_MATTERMOST"
    mattermost_api_token := environGet env "MATTERMOST_API_TOKEN"
    mattermost_url := environGet env "MATTERMOST_URL"
    enable_ms_teams := environGetFalse env "ENABLE_MS_TEAMS"
    microsoft_app_id := environGet env "MICROSOFT_APP_ID"
    microsoft_app_password := environGet env "MICROSOFT_APP_PASSWORD" }

/-- The nautobot_plugin_chatops_panorama entry of PLUGINS_CONFIG. -/
structure PanoramaConfig where
  panorama_host : Option String
  panorama_user : Option String
  panorama_password : Option String
deriving DecidableEq, Repr

/-- PLUGINS_CONFIG["nautobot_plugin_chatops_panorama"]. -/
def PLUGINS_CONFIG_panorama (env : Env) : PanoramaConfig :=
  { panorama_host := environGet env "PANORAMA_HOST"
    panorama_user := environGet env "PANORAMA_USER"
    panorama_password := environGet env "PANORAMA_PASSWORD" }

/-- PLUGINS: static list of enabled plugins. -/
def PLUGINS : List String :=
  ["nautobot_chatops", "nautobot_plugin_chatops_panorama"]

/-- EXTRA_INSTALLED_APPS = []: the list built fresh on every construction. -/
def EXTRA_INSTALLED_APPS : List String := []

/-- The middleware module name conditionally inserted at the front. -/
def debugToolbarMiddlewareName : String :=
  "debug_toolbar.middleware.DebugToolbarMiddleware"

/-- if DJANGO_TOOLBAR_ENABLED and "debug_toolbar" not in EXTRA_INSTALLED_APPS:
EXTRA_INSTALLED_APPS.append("debug_toolbar"). -/
def applyDjangoToolbarApps (enabled : Bool) (apps : List String) : List String :=
  if enabled && !(apps.contains "debug_toolbar") then apps ++ ["debug_toolbar"]
  else apps

/-- if DJANGO_TOOLBAR_ENABLED and the toolbar middleware not in MIDDLEWARE:
MIDDLEWARE.insert(0, it). -/
def applyDjangoToolbarMiddleware (enabled : Bool) (mw : List String) : List String :=
  if enabled && !(mw.contains debugToolbarMiddlewareName) then
    debugToolbarMiddlewareName :: mw
  else mw

/-- The assembled settings mapping, one field per module-level setting. The
MIDDLEWARE base comes from the wildcard import of nautobot.core.settings
and is a parameter of the construction. -/
structure Settings where
  testing : Bool
  allowed_hosts : List String
  databases_default : DatabaseDefault
  celery_queues : List (String × CeleryQueue)
  caches_default : CacheDefault
  cacheops_redis : StrOrRedis
  celery_broker_url : StrOrRedis
  celery_result_backend : StrOrRedis
  secret_key : Option String
  admins : List (String × String)
  allowed_url_schemes : List String
  banner_top : String
  banner_bottom : String
  banner_login : String
  cacheops_defaults_timeout : Int
  cacheops_enabled : Bool
  changelog_retention : Int
  cors_allow_all_origins : Bool
  cors_allowed_origins : List String
  cors_allowed_origin_regexes : List String
  csrf_trusted_origins : List String
  debug : Bool
  enforce_global_unique : Bool
  exempt_view_permissions : List String
  external_auth_default_groups : List String
  force_script_name : Option String
  hide_restricted_ui : Bool
  internal_ips : List String
  log_level : String
  logging : LoggingConfig
  maintenance_mode : Bool
  max_page_size : Int
  metrics_enabled : Bool
  napalm_username : String
  napalm_password : String
  napalm_timeout : Int
  paginate_count : Int
  plugins : List String
  plugins_config_chatops : ChatopsConfig
  plugins_config_panorama : PanoramaConfig
  prefer_ipv4 : Bool
  rack_elevation_default_unit_height : Int
  rack_elevation_default_unit_width : Int
  remote_auth_enabled : Bool
  remote_auth_backend : String
  remote_auth_header : String
  remote_auth_auto_create_user : Bool
  remote_auth_default_groups : List String
  release_check_timeout : Int
  release_check_url : Option String
  session_cookie_age : Int
  session_file_path : Option String
  social_auth_enabled : Bool
  social_auth_postgres_jsonfield : Bool
  time_zone : String
  date_format : String
  short_date_format : String
  time_format : String
  short_time_format : String
  datetime_format : String
  short_datetime_format : String
  extra_installed_apps : List String
  django_toolbar_enabled : Bool
  debug_toolbar_show : Bool
  middleware : List String
deriving Repr

/-- Loading the configuration module: the required-variable validation runs
first, then the settings are assembled in source order; every int coercion
of a present environment string may fail. baseMiddleware is the MIDDLEWARE
list inherited from the nautobot.core.settings wildcard import. -/
def loadConfig (env : Env) (argv : List String) (baseMiddleware : List String) :
    Except String Settings := do
  checkRequired env
  let db ← DATABASES_default env
  let cacheopsTimeout ← getenvInt env "NAUTOBOT_CACHEOPS_TIMEOUT" 900
  let changelogRetention ← getenvInt env "NAUTOBOT_CHANGELOG_RETENTION" 90
  let maxPageSize ← getenvInt env "NAUTOBOT_MAX_PAGE_SIZE" 1000
  let napalmTimeout ← getenvInt env "NAUTOBOT_NAPALM_TIMEOUT" 30
  let paginateCount ← getenvInt env "NAUTOBOT_PAGINATE_COUNT" 50
  let rackUnitHeight ← getenvInt env "NAUTOBOT_RACK_ELEVATION_DEFAULT_UNIT_HEIGHT" 22
  let rackUnitWidth ← getenvInt env "NAUTOBOT_RACK_ELEVATION_DEFAULT_UNIT_WIDTH" 220
  let releaseCheckTimeout ← getenvInt env "NAUTOBOT_RELEASE_CHECK_TIMEOUT" 86400
  let sessionCookieAge ← getenvInt env "NAUTOBOT_SESSION_COOKIE_AGE" 1209600
  pure
    { testing := TESTING argv
      allowed_hosts := ALLOWED_HOSTS env
      databases_default := db
      celery_queues := CELERY_QUEUES
      caches_default := CACHES_default env
      cacheops_redis := CACHEOPS_REDIS env
      celery_broker_url := CELERY_BROKER_URL env
      celery_result_backend := CELERY_RESULT_BACKEND env
      secret_key := SECRET_KEY env
      admins := []
      allowed_url_schemes := ALLOWED_URL_SCHEMES
      banner_top := getenvD env "NAUTOBOT_BANNER_TOP" ""
      banner_bottom := getenvD env "NAUTOBOT_BANNER_BOTTOM" ""
      banner_login := getenvD env "NAUTOBOT_BANNER_LOGIN" ""
      cacheops_defaults_timeout := cacheopsTimeout
      cacheops_enabled := CACHEOPS_ENABLED env
      changelog_retention := changelogRetention
      cors_allow_all_origins := getenvTruthy env "NAUTOBOT_CORS_ALLOW_ALL_ORIGINS" false
      cors_allowed_origins := []
      cors_allowed_origin_regexes := []
      csrf_trusted_origins := []
      debug := DEBUG env
      enforce_global_unique := getenvTruthy env "NAUTOBOT_ENFORCE_GLOBAL_UNIQUE" false
      exempt_view_permissions := []
      external_auth_default_groups := []
      force_script_name := none
      hide_restricted_ui := getenvTruthy env "NAUTOBOT_HIDE_RESTRICTED_UI" false
      internal_ips := ["127.0.0.1", "::1"]
      log_level := LOG_LEVEL env
      logging := LOGGING env
      maintenance_mode := getenvTruthy env "NAUTOBOT_MAINTENANCE_MODE" false
      max_page_size := maxPageSize
      metrics_enabled := getenvTruthy env "NAUTOBOT_METRICS_ENABLED" false
      napalm_username := getenvD env "NAUTOBOT_NAPALM_USERNAME" ""
      napalm_password := getenvD env "NAUTOBOT_NAPALM_PASSWORD" ""
      napalm_timeout := napalmTimeout
      paginate_count := paginateCount
      plugins := PLUGINS
      plugins_config_chatops := PLUGINS_CONFIG_chatops env
      plugins_config_panorama := PLUGINS_CONFIG_panorama env
      prefer_ipv4 := getenvTruthy env "NAUTOBOT_PREFER_IPV4" false
      rack_elevation_default_unit_height := rackUnitHeight
      rack_elevation_default_unit_width := rackUnitWidth
      remote_auth_enabled := false
      remote_auth_backend := "nautobot.core.authentication.RemoteUserBackend"
      remote_auth_header := "HTTP_REMOTE_USER"
      remote_auth_auto_create_user := true
      remote_auth_default_groups := []
      release_check_timeout := releaseCheckTimeout
      release_check_url := environGet env "NAUTOBOT_RELEASE_CHECK_URL"
      session_cookie_age := sessionCookieAge
      session_file_path := environGet env "NAUTOBOT_SESSION_FILE_PATH"
      social_auth_enabled := false
      social_auth_postgres_jsonfield := false
      time_zone := getenvD env "NAUTOBOT_TIME_ZONE" "UTC"
      date_format := getenvD env "NAUTOBOT_DATE_FORMAT" "N j, Y"
      short_date_format := getenvD env "NAUTOBOT_SHORT_DATE_FORMAT" "Y-m-d"
      time_format := getenvD env "NAUTOBOT_TIME_FORMAT" "g:i a"
      short_time_format := getenvD env "NAUTOBOT_SHORT_TIME_FORMAT" "H:i:s"
      datetime_format := getenvD env "NAUTOBOT_DATETIME_FORMAT" "N j, Y g:i a"
      short_datetime_format := getenvD env "NAUTOBOT_SHORT_DATETIME_FORMAT" "Y-m-d H:i"
      extra_installed_apps :=
        applyDjangoToolbarApps (DJANGO_TOOLBAR_ENABLED env) EXTRA_INSTALLED_APPS
      django_toolbar_enabled := DJANGO_TOOLBAR_ENABLED env
      debug_toolbar_show := DEBUG env && !(TESTING argv)
      middleware :=
        applyDjangoToolbarMiddleware (DJANGO_TOOLBAR_ENABLED env) baseMiddleware }

/-- A concrete environment that sets exactly the six required variables to
nonempty values and leaves every optional variable unset. -/
def envBase : Env :=
  envOfList
    [ ("NAUTOBOT_ALLOWED_HOSTS", "nautobot.example.com")
    , ("NAUTOBOT_DB_USER", "nautobot")
    , ("NAUTOBOT_DB_PASSWORD", "dbpass")
    , ("NAUTOBOT_REDIS_HOST", "redis")
    , ("NAUTOBOT_REDIS_PASSWORD", "redispass")
    , ("NAUTOBOT_SECRET_KEY", "0123456789") ]

/-- The variables coerced by the Python int builtin when present. -/
def intKeys : List String :=
  [ "NAUTOBOT_DB_TIMEOUT"
  , "NAUTOBOT_CACHEOPS_TIMEOUT"
  , "NAUTOBOT_CHANGELOG_RETENTION"
  , "NAUTOBOT_MAX_PAGE_SIZE"
  , "NAUTOBOT_NAPALM_TIMEOUT"
  , "NAUTOBOT_PAGINATE_COUNT"
  , "NAUTOBOT_RACK_ELEVATION_DEFAULT_UNIT_HEIGHT"
  , "NAUTOBOT_RACK_ELEVATION_DEFAULT_UNIT_WIDTH"
  , "NAUTOBOT_RELEASE_CHECK_TIMEOUT"
  , "NAUTOBOT_SESSION_COOKIE_AGE" ]

/-- A variable is int-coercible when it is unset or its string parses as a
Python int literal. -/
def intCoercible (env : Env) (key : String) : Bool :=
  match env key with
  | none => true
  | some s => (pyInt? s).isSome

/-- A sample base middleware chain, standing in for the list inherited from
nautobot.core.settings. -/
def baseMiddlewareSample : List String :=
  ["django.middleware.security.SecurityMiddleware"]

/-- A concrete environment in which five required variables are set but
NAUTOBOT_REDIS_PASSWORD is bound to the empty string. -/
def envPartial : Env :=
  envOfList
    [ ("NAUTOBOT_ALLOWED_HOSTS", "nautobot.example.com")
    , ("NAUTOBOT_DB_USER", "nautobot")
    , ("NAUTOBOT_DB_PASSWORD", "dbpass")
    , ("NAUTOBOT_REDIS_HOST", "redis")
    , ("NAUTOBOT_REDIS_PASSWORD", "")
    , ("NAUTOBOT_SECRET_KEY", "0123456789") ]

/-- The base environment with the database engine set to MySQL. -/
def envMysql : Env :=
  envSet envBase "NAUTOBOT_DB_ENGINE" "django.db.backends.mysql"

/-- The database settings produced from envMysql. -/
def dbMysqlSample : DatabaseDefault :=
  { name := "nautobot"
    user := "nautobot"
    password := "dbpass"
    host := "localhost"
    port := ""
    conn_max_age := 300
    engine := "django.db.backends.mysql"
    options := some "utf8mb4" }

/-
Helper lemmas about the validation loop and the int coercions.
-/

/-- The validation loop raises on the first missing key of the list. -/
theorem checkRequiredList_error_of_find (env : Env) (ks : List String) (k : String)
    (h : ks.find? (fun key => requiredMissing env key) = some k) :
    checkRequiredList env ks = Except.error (requiredErrMsg k) := by
  induction ks with
  | nil => simp [List.find?] at h
  | cons x xs ih =>
    rw [List.find?] at h
    by_cases hx : requiredMissing env x
    · rw [hx] at h
      simp at h
      subst h
      simp [checkRequiredList, hx]
    · simp [hx] at h
      simp [checkRequiredList, hx, ih h]

/-- The validation loop falls through when no key of the list is missing. -/
theorem checkRequiredList_ok (env : Env) (ks : List String)
    (h : ∀ k ∈ ks, requiredMissing env k = false) :
    checkRequiredList env ks = Except.ok () := by
  induction ks with
  | nil => rfl
  | cons x xs ih =>
    simp [checkRequiredList, h x (by simp)]
    exact ih (fun k hk => h k (by simp [hk]))

/-- A validation error propagates unchanged through the whole load. -/
theorem loadConfig_error_of_check (env : Env) (argv baseMiddleware : List String)
    (e : String) (h : checkRequired env = Except.error e) :
    loadConfig env argv baseMiddleware = Except.error e := by
  unfold loadConfig
  rw [h]
  rfl

/-- An int-coercible variable always yields a successful coercion. -/
theorem getenvInt_ok_of_coercible (env : Env) (key : String) (d : Int)
    (h : intCoercible env key = true) :
    ∃ n, getenvInt env key d = Except.ok n := by
  cases henv : env key with
  | none => exact ⟨d, by unfold getenvInt; rw [henv]⟩
  | some s =>
    have h2 : (pyInt? s).isSome := by
      unfold intCoercible at h
      rw [henv] at h
      exact h
    obtain ⟨n, hn⟩ := Option.isSome_iff_exists.mp h2
    exact ⟨n, by unfold getenvInt; rw [henv]; simp [hn]⟩

/-- Claim C1: whenever at least one of the six required variables is absent
or bound to the empty string, loading the configuration raises a
missing-required-configuration error whose message names the first such
variable in the fixed order of requiredKeys; an empty string counts as
missing. The hypothesis says that k is the first key of requiredKeys that
is absent or empty in env. -/
theorem required_variable_error (env : Env) (argv baseMiddleware : List String)
    (k : String)
    (h : requiredKeys.find? (fun key => requiredMissing env key) = some k) :
    loadConfig env argv baseMiddleware =
      Except.error ("Required environment variable " ++ k ++ " is missing.") :=
  loadConfig_error_of_check env argv baseMiddleware _
    (checkRequiredList_error_of_find env requiredKeys k h)

/-- Witness for claim C1: in an environment where the first four required
variables are set, NAUTOBOT_REDIS_PASSWORD is bound to the empty string and
the rest are set, the load fails naming NAUTOBOT_REDIS_PASSWORD. -/
theorem required_variable_error_witness :
    loadConfig envPartial [] [] =
      Except.error "Required environment variable NAUTOBOT_REDIS_PASSWORD is missing." :=
  required_variable_error envPartial [] [] "NAUTOBOT_REDIS_PASSWORD" (by decide)

/-- Claim C5: the required-variable validation runs before any settings
assembly: a validation error is the result of the whole load, unchanged,
whatever the rest of the environment holds; and on success the validator
produces no observable output beyond falling through. -/
theorem validation_pure_gate :
    (∀ (env : Env) (argv baseMiddleware : List String) (e : String),
      checkRequired env = Except.error e →
      loadConfig env argv baseMiddleware = Except.error e) ∧
    (∀ env : Env, (∀ k ∈ requiredKeys, requiredMissing env k = false) →
      checkRequired env = Except.ok ()) :=
  ⟨fun env argv baseMiddleware e h => loadConfig_error_of_check env argv baseMiddleware e h,
   fun env h => checkRequiredList_ok env requiredKeys h⟩

/-- Witness for claim C5: with every variable unset the load fails with the
validation error for NAUTOBOT_ALLOWED_HOSTS, and with all six required
variables set the validation gate succeeds with no output. -/
theorem validation_pure_gate_witness :
    loadConfig emptyEnv [] [] =
      Except.error (requiredErrMsg "NAUTOBOT_ALLOWED_HOSTS") ∧
    checkRequired envBase = Except.ok () :=
  ⟨validation_pure_gate.1 emptyEnv [] [] _ rfl,
   validation_pure_gate.2 envBase (by decide)⟩

/-- Claim C6: for every environment in which all six required variables are
set to nonempty values and every int-coerced optional variable is unset or
parseable, loading the configuration completes without error. -/
theorem load_succeeds (env : Env) (argv baseMiddleware : List String)
    (hreq : ∀ k ∈ requiredKeys, requiredMissing env k = false)
    (hint : ∀ k ∈ intKeys, intCoercible env k = true) :
    ∃ settings, loadConfig env argv baseMiddleware = Except.ok settings := by
  have hc : checkRequired env = Except.ok () := checkRequiredList_ok env requiredKeys hreq
  obtain ⟨n0, h0⟩ := getenvInt_ok_of_coercible env "NAUTOBOT_DB_TIMEOUT" 300
    (hint _ (by simp [intKeys]))
  obtain ⟨db, hdb⟩ : ∃ db, DATABASES_default env = Except.ok db := by
    unfold DATABASES_default
    rw [h0]
    exact ⟨_, rfl⟩
  obtain ⟨n1, h1⟩ := getenvInt_ok_of_coercible env "NAUTOBOT_CACHEOPS_TIMEOUT" 900
    (hint _ (by simp [intKeys]))
  obtain ⟨n2, h2⟩ := getenvInt_ok_of_coercible env "NAUTOBOT_CHANGELOG_RETENTION" 90
    (hint _ (by simp [intKeys]))
  obtain ⟨n3, h3⟩ := getenvInt_ok_of_coercible env "NAUTOBOT_MAX_PAGE_SIZE" 1000
    (hint _ (by simp [intKeys]))
  obtain ⟨n4, h4⟩ := getenvInt_ok_of_coercible env "NAUTOBOT_NAPALM_TIMEOUT" 30
    (hint _ (by simp [intKeys]))
  obtain ⟨n5, h5⟩ := getenvInt_ok_of_coercible env "NAUTOBOT_PAGINATE_COUNT" 50
    (hint _ (by simp [intKeys]))
  obtain ⟨n6, h6⟩ := getenvInt_ok_of_coercible env
    "NAUTOBOT_RACK_ELEVATION_DEFAULT_UNIT_HEIGHT" 22 (hint _ (by simp [intKeys]))
  obtain ⟨n7, h7⟩ := getenvInt_ok_of_coercible env
    "NAUTOBOT_RACK_ELEVATION_DEFAULT_UNIT_WIDTH" 220 (hint _ (by simp [intKeys]))
  obtain ⟨n8, h8⟩ := getenvInt_ok_of_coercible env "NAUTOBOT_RELEASE_CHECK_TIMEOUT" 86400
    (hint _ (by simp [intKeys]))
  obtain ⟨n9, h9⟩ := getenvInt_ok_of_coercible env "NAUTOBOT_SESSION_COOKIE_AGE" 1209600
    (hint _ (by simp [intKeys]))
  apply Exists.intro
  unfold loadConfig
  simp only [hc, hdb, h1, h2, h3, h4, h5, h6, h7, h8, h9]
  rfl

/-- Witness for claim C6: the base environment with exactly the six
required variables set loads successfully. -/
theorem load_succeeds_witness : exceptIsOk (loadConfig envBase [] []) = true := by
  obtain ⟨s, hs⟩ := load_succeeds envBase [] [] (by decide) (by decide)
  rw [hs]
  rfl

/-- Counterexample for claim C2: the claim states that the primary cache,
the cacheops cache and the task-queue broker/result-backend descriptors use
a logical database index different for each of the three; but in the base
environment the primary cache location and the Celery broker (and result
backend) both use index 0, so the indices are not pairwise different. -/
theorem redis_indices_counterexample :
    cacheRedisDatabase envBase = 0 ∧
    cacheopsRedisDatabase envBase = some 1 ∧
    celeryBrokerRedisDatabase envBase = some 0 ∧
    celeryResultRedisDatabase envBase = some 0 ∧
    ¬ some (cacheRedisDatabase envBase) ≠ celeryBrokerRedisDatabase envBase := by
  refine ⟨rfl, rfl, rfl, rfl, ?_⟩
  intro hne
  exact hne rfl

/-- Claim C2 (amended): when the three override variables are unset, the
primary cache location, the cacheops descriptor and the Celery
broker/result-backend are all produced by the shared connection-locator:
the cacheops descriptor uses logical index 1, distinct from index 0 used by
the primary cache, while the broker and result backend use index 0, the
same index as the primary cache; descriptors from the same base connection
variables agree on every endpoint component and differ only in the index. -/
theorem redis_logical_indices (env : Env)
    (h1 : env "NAUTOBOT_CACHEOPS_REDIS" = none)
    (h2 : env "NAUTOBOT_CELERY_BROKER_URL" = none)
    (h3 : env "NAUTOBOT_CELERY_RESULT_BACKEND" = none) :
    (CACHES_default env).location = parse_redis_connection env 0 ∧
    CACHEOPS_REDIS env = StrOrRedis.conn (parse_redis_connection env 1) ∧
    CELERY_BROKER_URL env = StrOrRedis.conn (parse_redis_connection env 0) ∧
    CELERY_RESULT_BACKEND env = StrOrRedis.conn (parse_redis_connection env 0) ∧
    (parse_redis_connection env 1).host = (parse_redis_connection env 0).host ∧
    (parse_redis_connection env 1).port = (parse_redis_connection env 0).port ∧
    (parse_redis_connection env 1).password = (parse_redis_connection env 0).password ∧
    (parse_redis_connection env 1).database ≠ (parse_redis_connection env 0).database := by
  refine ⟨rfl, ?_, ?_, ?_, rfl, rfl, rfl, by simp [parse_redis_connection]⟩
  · unfold CACHEOPS_REDIS
    rw [h1]
  · unfold CELERY_BROKER_URL
    rw [h2]
  · unfold CELERY_RESULT_BACKEND
    rw [h3]

/-- Witness for the amended claim C2, at the base environment. -/
theorem redis_logical_indices_witness :
    (CACHES_default envBase).location = parse_redis_connection envBase 0 ∧
    CACHEOPS_REDIS envBase = StrOrRedis.conn (parse_redis_connection envBase 1) ∧
    (parse_redis_connection envBase 1).database ≠ (parse_redis_connection envBase 0).database :=
  ⟨(redis_logical_indices envBase rfl rfl rfl).1,
   (redis_logical_indices envBase rfl rfl rfl).2.1,
   (redis_logical_indices envBase rfl rfl rfl).2.2.2.2.2.2.2⟩

/-- Claim C3: for any base middleware chain not already holding the debug
toolbar middleware, after construction the toolbar middleware is first in
the chain iff the toggle is enabled, it occurs exactly once when enabled
and never otherwise, the debug_toolbar module is in the
extra-installed-applications list iff the toggle is enabled, and applying
the construction again introduces no duplicate of either entry. -/
theorem debug_toolbar_insertion (enabled : Bool) (base : List String)
    (h : debugToolbarMiddlewareName ∉ base) :
    ((applyDjangoToolbarMiddleware enabled base).head? =
        some debugToolbarMiddlewareName ↔ enabled = true) ∧
    (applyDjangoToolbarMiddleware enabled base).count debugToolbarMiddlewareName =
      (if enabled then 1 else 0) ∧
    ("debug_toolbar" ∈ applyDjangoToolbarApps enabled EXTRA_INSTALLED_APPS ↔
      enabled = true) ∧
    applyDjangoToolbarMiddleware enabled (applyDjangoToolbarMiddleware enabled base) =
      applyDjangoToolbarMiddleware enabled base ∧
    applyDjangoToolbarApps enabled (applyDjangoToolbarApps enabled EXTRA_INSTALLED_APPS) =
      applyDjangoToolbarApps enabled EXTRA_INSTALLED_APPS := by
  have hcontains : base.contains debugToolbarMiddlewareName = false := by
    simpa using h
  have hcount : base.count debugToolbarMiddlewareName = 0 :=
    List.count_eq_zero.mpr h
  cases enabled with
  | false =>
    refine ⟨?_, ?_, ?_, ?_, ?_⟩
    · simp only [applyDjangoToolbarMiddleware, Bool.false_and, if_neg Bool.false_ne_true]
      constructor
      · intro hq
        exfalso
        cases base with
        | nil => simp at hq
        | cons a l =>
          simp [List.head?] at hq
          exact h (hq ▸ List.mem_cons_self a l)
      · intro hq
        exact absurd hq (by simp)
    · simp [applyDjangoToolbarMiddleware, hcount]
    · simp [applyDjangoToolbarApps, EXTRA_INSTALLED_APPS]
    · simp [applyDjangoToolbarMiddleware]
    · simp [applyDjangoToolbarApps]
  | true =>
    refine ⟨?_, ?_, ?_, ?_, ?_⟩
    · simp [applyDjangoToolbarMiddleware, h]
    · simp [applyDjangoToolbarMiddleware, h, List.count_cons_self, hcount]
    · simp [applyDjangoToolbarApps, EXTRA_INSTALLED_APPS]
    · simp [applyDjangoToolbarMiddleware, h]
    · simp [applyDjangoToolbarApps, EXTRA_INSTALLED_APPS]

/-- Witness for claim C3, with the toggle enabled over a sample base
middleware chain. -/
theorem debug_toolbar_insertion_witness :
    debugToolbarMiddlewareName ∉ baseMiddlewareSample ∧
    (((applyDjangoToolbarMiddleware true baseMiddlewareSample).head? =
        some debugToolbarMiddlewareName ↔ true = true) ∧
    (applyDjangoToolbarMiddleware true baseMiddlewareSample).count
        debugToolbarMiddlewareName = (if true then 1 else 0) ∧
    ("debug_toolbar" ∈ applyDjangoToolbarApps true EXTRA_INSTALLED_APPS ↔
      true = true) ∧
    applyDjangoToolbarMiddleware true (applyDjangoToolbarMiddleware true baseMiddlewareSample) =
      applyDjangoToolbarMiddleware true baseMiddlewareSample ∧
    applyDjangoToolbarApps true (applyDjangoToolbarApps true EXTRA_INSTALLED_APPS) =
      applyDjangoToolbarApps true EXTRA_INSTALLED_APPS) :=
  ⟨by decide, debug_toolbar_insertion true baseMiddlewareSample (by decide)⟩

/-- Claim C4: for the boolean-toggle options NAUTOBOT_DEBUG,
NAUTOBOT_DJANGO_TOOLBAR_ENABLED and NAUTOBOT_CACHEOPS_ENABLED, the strings
"true", "True" and "1" parse to true, the strings "false", "0" and "" parse
to false, and an unset variable yields the documented default (false,
false, and true respectively). -/
theorem truthy_toggle_parsing (env : Env) :
    DEBUG (envSet env "NAUTOBOT_DEBUG" "true") = true ∧
    DEBUG (envSet env "NAUTOBOT_DEBUG" "True") = true ∧
    DEBUG (envSet env "NAUTOBOT_DEBUG" "1") = true ∧
    DEBUG (envSet env "NAUTOBOT_DEBUG" "false") = false ∧
    DEBUG (envSet env "NAUTOBOT_DEBUG" "0") = false ∧
    DEBUG (envSet env "NAUTOBOT_DEBUG" "") = false ∧
    DEBUG (envUnset env "NAUTOBOT_DEBUG") = false ∧
    DJANGO_TOOLBAR_ENABLED (envSet env "NAUTOBOT_DJANGO_TOOLBAR_ENABLED" "true") = true ∧
    DJANGO_TOOLBAR_ENABLED (envSet env "NAUTOBOT_DJANGO_TOOLBAR_ENABLED" "True") = true ∧
    DJANGO_TOOLBAR_ENABLED (envSet env "NAUTOBOT_DJANGO_TOOLBAR_ENABLED" "1") = true ∧
    DJANGO_TOOLBAR_ENABLED (envSet env "NAUTOBOT_DJANGO_TOOLBAR_ENABLED" "false") = false ∧
    DJANGO_TOOLBAR_ENABLED (envSet env "NAUTOBOT_DJANGO_TOOLBAR_ENABLED" "0") = false ∧
    DJANGO_TOOLBAR_ENABLED (envSet env "NAUTOBOT_DJANGO_TOOLBAR_ENABLED" "") = false ∧
    DJANGO_TOOLBAR_ENABLED (envUnset env "NAUTOBOT_DJANGO_TOOLBAR_ENABLED") = false ∧
    CACHEOPS_ENABLED (envSet env "NAUTOBOT_CACHEOPS_ENABLED" "true") = true ∧
    CACHEOPS_ENABLED (envSet env "NAUTOBOT_CACHEOPS_ENABLED" "True") = true ∧
    CACHEOPS_ENABLED (envSet env "NAUTOBOT_CACHEOPS_ENABLED" "1") = true ∧
    CACHEOPS_ENABLED (envSet env "NAUTOBOT_CACHEOPS_ENABLED" "false") = false ∧
    CACHEOPS_ENABLED (envSet env "NAUTOBOT_CACHEOPS_ENABLED" "0") = false ∧
    CACHEOPS_ENABLED (envSet env "NAUTOBOT_CACHEOPS_ENABLED" "") = false ∧
    CACHEOPS_ENABLED (envUnset env "NAUTOBOT_CACHEOPS_ENABLED") = true := by
  simp [DEBUG, DJANGO_TOOLBAR_ENABLED, CACHEOPS_ENABLED, getenvTruthy, envSet,
    envUnset, is_truthy]

/-- Claim C7: the derived log-level string is "DEBUG" when the debug-mode
boolean is true and "INFO" otherwise, and exactly that string is embedded
as the level of the nautobot and rq.worker loggers of the structured
logging configuration. -/
theorem log_level_embedding (env : Env) :
    LOG_LEVEL env = (if DEBUG env then "DEBUG" else "INFO") ∧
    (LOGGING env).nautobot.level = LOG_LEVEL env ∧
    (LOGGING env).rq_worker.level = LOG_LEVEL env ∧
    (LOGGING env).django.level = "INFO" :=
  ⟨rfl, rfl, rfl, rfl⟩

/-- Claim C8: the test-mode flag is true iff the process argument vector
has more than one element and its second element is exactly "test". -/
theorem testing_flag (argv : List String) :
    TESTING argv = true ↔ 1 < argv.length ∧ argv.get? 1 = some "test" := by
  match argv with
  | [] => simp [TESTING]
  | [a] => simp [TESTING]
  | a :: b :: t => simp [TESTING, List.getD]

/-- Claim C9: the default database settings hold an OPTIONS charset entry
"utf8mb4" exactly when the configured engine is django.db.backends.mysql,
and no OPTIONS entry otherwise. -/
theorem mysql_charset_options (env : Env) (db : DatabaseDefault)
    (h : DATABASES_default env = Except.ok db) :
    db.options =
      (if db.engine = "django.db.backends.mysql" then some "utf8mb4" else none) := by
  unfold DATABASES_default at h
  cases hgi : getenvInt env "NAUTOBOT_DB_TIMEOUT" 300 with
  | error e => rw [hgi] at h; simp at h
  | ok n =>
    rw [hgi] at h
    simp only [Except.ok.injEq] at h
    subst h
    rfl

/-- Witness for claim C9: with the engine set to MySQL over the base
environment, the OPTIONS charset entry is present. -/
theorem mysql_charset_options_witness :
    DATABASES_default envMysql = Except.ok dbMysqlSample ∧
    dbMysqlSample.options =
      (if dbMysqlSample.engine = "django.db.backends.mysql" then some "utf8mb4" else none) :=
  ⟨rfl, mysql_charset_options envMysql dbMysqlSample rfl⟩

/-- Claim C10: the chat-integration enable toggles are not passed through
boolean truthy parsing: a set variable is stored as its raw environment
string (in particular the string "false" is stored as-is, although truthy
parsing would map it to false), and only an unset variable yields the
boolean False. -/
theorem chatops_raw_toggles (env : Env) (s : String) :
    (PLUGINS_CONFIG_chatops (envSet env "ENABLE_SLACK" s)).enable_slack =
      StrOrBool.str s ∧
    (PLUGINS_CONFIG_chatops (envUnset env "ENABLE_SLACK")).enable_slack =
      StrOrBool.pybool false ∧
    (PLUGINS_CONFIG_chatops (envSet env "ENABLE_WEBEX" s)).enable_webex =
      StrOrBool.str s ∧
    (PLUGINS_CONFIG_chatops (envUnset env "ENABLE_WEBEX")).enable_webex =
      StrOrBool.pybool false ∧
    (PLUGINS_CONFIG_chatops (envSet env "ENABLE_MATTERMOST" s)).enable_mattermost =
      StrOrBool.str s ∧
    (PLUGINS_CONFIG_chatops (envUnset env "ENABLE_MATTERMOST")).enable_mattermost =
      StrOrBool.pybool false ∧
    (PLUGINS_CONFIG_chatops (envSet env "ENABLE_MS_TEAMS" s)).enable_ms_teams =
      StrOrBool.str s ∧
    (PLUGINS_CONFIG_chatops (envUnset env "ENABLE_MS_TEAMS")).enable_ms_teams =
      StrOrBool.pybool false ∧
    (PLUGINS_CONFIG_chatops (envSet env "ENABLE_SLACK" "false")).enable_slack =
      StrOrBool.str "false" ∧
    StrOrBool.str "false" ≠ StrOrBool.pybool false ∧
    is_truthy "false" = false := by
  refine ⟨?_, ?_, ?_, ?_, ?_, ?_, ?_, ?_, ?_, by simp, rfl⟩ <;>
    simp [PLUGINS_CONFIG_chatops, environGetFalse, envSet, envUnset]

end NautobotConfig
